import Mathlib

/-!
Verification of the chunk-grouping, comment-assembly and publishing logic of the
automated pull-request reviewer in src/main.ts. Pure fragments of the source are
translated directly; the calls to external services (the completion endpoint and the
review-publishing endpoint) are modelled by explicit outcome parameters, so that the
control flow around them is the translation of the source and nothing else.
-/

namespace CodeReviewer

/-- One changed line as produced by the parse-diff library: optional new-file and
old-file line numbers and the line text. The grouping logic of main.ts reads only
the list structure of changes. -/
structure Change where
  ln : Option Nat
  ln2 : Option Nat
  content : String
  deriving DecidableEq

/-- A diff hunk as used by main.ts: the hunk content string and its changed lines.
The combined chunks built at main.ts lines 73-76 and 115-118 have the same shape. -/
structure Chunk where
  content : String
  changes : List Change
  deriving DecidableEq

/-- A parsed file diff, restricted to the fields main.ts reads: the destination path
(none when absent) and the ordered hunks. -/
structure File where
  «to» : Option String
  chunks : List Chunk
  deriving DecidableEq

/-- A raw suggestion from the model reply (the element type returned by getAIResponse,
main.ts lines 193-196): both fields are strings as delivered. -/
structure Suggestion where
  lineNumber : String
  reviewComment : String
  deriving DecidableEq

/-- A validated inline comment (the element type returned by createComment, main.ts
line 236). The line field is a JS number, modelled as a rational. -/
structure InlineComment where
  body : String
  path : String
  line : ℚ
  deriving DecidableEq

/-- A JS number restricted to what parseInt with radix 10 produces: NaN or an integer. -/
inductive JsNumber where
  | nan : JsNumber
  | int : ℤ → JsNumber
  deriving DecidableEq

/-- Numeric value of a list of decimal digit characters. -/
def digitsToNat (ds : List Char) : Nat :=
  ds.foldl (fun acc c => acc * 10 + (c.toNat - 48)) 0

/-- Removal of leading and trailing whitespace on a character list, as the JS string
to number conversions do before reading the number. -/
def jsTrim (cs : List Char) : List Char :=
  ((cs.dropWhile Char.isWhitespace).reverse.dropWhile Char.isWhitespace).reverse

/-- JS parseInt(s, 10) as used at main.ts line 11: skip leading whitespace, read an
optional sign, then take the longest prefix of decimal digits; the result is NaN when
that prefix is empty and otherwise the signed value of the digits (any trailing
non-digit characters are ignored). -/
def parseIntJs (s : String) : JsNumber :=
  match s.toList.dropWhile Char.isWhitespace with
  | '-' :: r =>
    let ds := r.takeWhile Char.isDigit
    if ds.isEmpty then JsNumber.nan else JsNumber.int (-(digitsToNat ds : ℤ))
  | '+' :: r =>
    let ds := r.takeWhile Char.isDigit
    if ds.isEmpty then JsNumber.nan else JsNumber.int (digitsToNat ds : ℤ)
  | r =>
    let ds := r.takeWhile Char.isDigit
    if ds.isEmpty then JsNumber.nan else JsNumber.int (digitsToNat ds : ℤ)

/-- The MAX_COMMENTS_PER_PR configuration constant, main.ts line 11: the action input
string, defaulted to the string 10 when empty (the JS or-operator on a falsy string),
then passed through parseInt with radix 10. -/
def maxCommentsPerPR (input : String) : JsNumber :=
  parseIntJs (if input = "" then "10" else input)

/-- JS Array.prototype.slice(0, e) as used at main.ts line 150: a NaN end index is
converted to 0, giving the empty list; a negative end index counts from the end of the
list; otherwise the first e elements are kept. -/
def sliceJs {α : Type} (l : List α) (e : JsNumber) : List α :=
  match e with
  | JsNumber.nan => []
  | JsNumber.int n => if n < 0 then l.take (l.length - (-n).toNat) else l.take n.toNat

/-- JS Number(s) as used at main.ts line 243, on the decimal string forms: after
trimming whitespace, the empty string is 0, and an optional sign followed by decimal
digits with an optional fractional part denotes the corresponding rational. All other
forms (hexadecimal, exponent and Infinity notations, which no claim depends on) are
mapped to none, the encoding of NaN. -/
def jsNumberBody (sg : ℤ) (rest : List Char) : Option ℚ :=
  let ip := rest.takeWhile Char.isDigit
  match rest.dropWhile Char.isDigit with
  | [] => if ip.isEmpty then none else some (mkRat (sg * (digitsToNat ip : ℤ)) 1)
  | '.' :: fr =>
    if fr.all Char.isDigit && !(ip.isEmpty && fr.isEmpty) then
      some (mkRat (sg * ((digitsToNat ip * 10 ^ fr.length + digitsToNat fr : ℕ) : ℤ))
        (10 ^ fr.length))
    else none
  | _ => none

/-- JS Number(s) on a trimmed character list: an optional sign followed by the digit
forms handled by jsNumberBody; the resulting rational is the exact value of the
decimal literal, built as numerator over a power of ten. -/
def jsNumber (s : String) : Option ℚ :=
  match jsTrim s.toList with
  | [] => some 0
  | '-' :: r => jsNumberBody (-1) r
  | '+' :: r => jsNumberBody 1 r
  | cs => jsNumberBody 1 cs

/-- The changed-line ceiling per prompt, main.ts line 65 (maxChangesPerChunk). -/
def maxChangesPerChunk : Nat := 100

/-- The chunk built when two adjacent hunks are combined, main.ts lines 115-118:
contents joined with a newline, change lists concatenated. -/
def mergeChunks (a b : Chunk) : Chunk :=
  Chunk.mk (a.content ++ "\n" ++ b.content) (a.changes ++ b.changes)

/-- The whole-file chunk built when a file has at most 3 hunks, main.ts lines 73-76:
all chunk contents joined with newlines, all change lists concatenated in order. -/
def combinedChunk (file : File) : Chunk :=
  Chunk.mk (String.intercalate "\n" (file.chunks.map Chunk.content))
    (file.chunks.flatMap Chunk.changes)

/-- The per-hunk loop of analyzeCode for a file with more than 3 hunks, main.ts lines
88-145, as the list of chunk groups it submits, in submission order. The loop visits
hunks left to right: a hunk with fewer than 3 changed lines is skipped; a hunk with
more than maxChangesPerChunk changed lines is submitted alone; otherwise, when a next
hunk exists and the combined change count fits the ceiling, the two are merged and the
loop advances past both (the i++ of the merge branch corresponds to the recursive call
on the list after the next hunk); when merging would exceed the ceiling or no next
hunk exists, the hunk is submitted alone. -/
def groupChunks : List Chunk → List Chunk
  | [] => []
  | [c] => if c.changes.length < 3 then [] else [c]
  | c :: next :: rest =>
    if c.changes.length < 3 then groupChunks (next :: rest)
    else if maxChangesPerChunk < c.changes.length then c :: groupChunks (next :: rest)
    else if c.changes.length + next.changes.length ≤ maxChangesPerChunk then
      mergeChunks c next :: groupChunks rest
    else c :: groupChunks (next :: rest)

/-- The review units analyzeCode submits for one parsed file, in submission order,
main.ts lines 67-146: a deleted file (destination /dev/null) is skipped entirely; a
file with at most 3 chunks becomes one combined unit; otherwise the per-hunk grouping
loop runs. -/
def fileUnits (file : File) : List Chunk :=
  if file.«to» = some "/dev/null" then []
  else if file.chunks.length ≤ 3 then [combinedChunk file]
  else groupChunks file.chunks

/-- All pairs of a file and one of its review units over a run, in submission order
(the outer file loop of analyzeCode, main.ts line 67). -/
def analyzeCodeUnits (files : List File) : List (File × Chunk) :=
  files.flatMap (fun f => (fileUnits f).map (fun u => (f, u)))

/-- Outcome of one completion call, classifying the behavior of the external service
and of the reply body at main.ts lines 206-222: the request may throw (network error),
the reply may fail JSON.parse (throwing inside the try block), the parsed object may
lack the reviews field, or it may carry a list of suggestions. -/
inductive CompletionOutcome where
  | error : CompletionOutcome
  | malformed : CompletionOutcome
  | missingReviews : CompletionOutcome
  | reviews : List Suggestion → CompletionOutcome
  deriving DecidableEq

/-- The getAIResponse function, main.ts lines 193-227: a thrown request error or an
unparseable reply body is caught and returns null; a reply without a reviews field
returns undefined; both values are falsy at every call site, so both are modelled as
none. A present reviews array is returned as is. -/
def getAIResponse : CompletionOutcome → Option (List Suggestion)
  | CompletionOutcome.error => none
  | CompletionOutcome.malformed => none
  | CompletionOutcome.missingReviews => none
  | CompletionOutcome.reviews rs => some rs

/-- The createComment function, main.ts lines 229-261. For each suggestion in order:
a falsy file destination (absent or empty path) drops it; Number(lineNumber) must not
be NaN and must be positive; the comment text must be at least 20 characters long;
survivors become records of body, path and parsed line. The chunk argument is unused,
as in the source. -/
def createComment (file : File) (_chunk : Chunk) (aiResponses : List Suggestion) :
    List InlineComment :=
  aiResponses.flatMap (fun r =>
    match file.«to» with
    | none => []
    | some dest =>
      if dest = "" then []
      else
        match jsNumber r.lineNumber with
        | none => []
        | some n =>
          if n ≤ 0 then []
          else if r.reviewComment.length < 20 then []
          else [InlineComment.mk r.reviewComment dest n])

/-- The acceptance test applied by createComment to one suggestion: Number(lineNumber)
is a number greater than 0 and the comment text has at least 20 characters. -/
def keepSuggestion (r : Suggestion) : Bool :=
  (match jsNumber r.lineNumber with
   | none => false
   | some n => decide (0 < n)) && decide (20 ≤ r.reviewComment.length)

/-- The inline comment createComment builds from a surviving suggestion. -/
def emitComment (dest : String) (r : Suggestion) : InlineComment :=
  InlineComment.mk r.reviewComment dest ((jsNumber r.lineNumber).getD 0)

/-- Comments contributed by a single review unit, main.ts lines 79-85, 99-106, 120-127
and 136-143: when getAIResponse is falsy the unit is skipped, otherwise createComment
runs on the returned suggestions and the result is appended (an empty array is truthy
in JS, so it is appended as well, adding nothing). -/
def unitContribution (fu : File × Chunk) (o : CompletionOutcome) : List InlineComment :=
  match getAIResponse o with
  | none => []
  | some rs => createComment fu.1 fu.2 rs

/-- Sequential accumulation of unit contributions: units are processed one at a time
in submission order, the completion call for the k-th unit having outcome ai k. -/
def contributionsFrom (ai : Nat → CompletionOutcome) :
    List (File × Chunk) → Nat → List InlineComment
  | [], _ => []
  | fu :: rest, k => unitContribution fu (ai k) ++ contributionsFrom ai rest (k + 1)

/-- The analyzeCode function, main.ts lines 60-151: accumulate each unit's comments
over all files in order, then slice(0, MAX_COMMENTS_PER_PR). The oracle ai gives the
outcome of the k-th completion call of the run. -/
def analyzeCode (files : List File) (ai : Nat → CompletionOutcome)
    (maxComments : JsNumber) : List InlineComment :=
  sliceJs (contributionsFrom ai (analyzeCodeUnits files) 0) maxComments

/-- Outcome of the review-publishing call (octokit createReview, main.ts lines
263-276), which is outside the modelled code: it either resolves or rejects. -/
inductive PublishOutcome where
  | ok : PublishOutcome
  | error : PublishOutcome
  deriving DecidableEq

/-- Result of the whole run: success means main resolves and the process exits with
code 0; failure means the top-level catch at main.ts lines 339-342 runs and the
process exits with code 1. -/
inductive RunResult where
  | success : RunResult
  | failure : RunResult
  deriving DecidableEq

/-- The tail of main after analyzeCode returns, main.ts lines 328-336: a review is
created only when the comment list is non-empty; the boolean records whether the
publish call was made. When the call is made, a publish error rejects main. -/
def mainTail (comments : List InlineComment) (pub : PublishOutcome) :
    RunResult × Bool :=
  if 0 < comments.length then
    (match pub with
     | PublishOutcome.ok => RunResult.success
     | PublishOutcome.error => RunResult.failure,
     true)
  else (RunResult.success, false)

/-- Process exit code of a run result, main.ts lines 339-342. -/
def exitCode : RunResult → Nat
  | RunResult.success => 0
  | RunResult.failure => 1

/-- Example changed line with new-file line number n. -/
def mkChange (n : Nat) : Change := Change.mk (some n) none "x"

/-- Example hunk with k changed lines, the first at line n. -/
def mkHunk (n k : Nat) : Chunk := Chunk.mk "" ((List.range k).map (fun i => mkChange (n + i)))

/-- Hunk with three changed lines at lines 10, 11, 12. -/
def bigHunkA : Chunk := mkHunk 10 3

/-- Hunk with three changed lines at lines 20, 21, 22. -/
def bigHunkB : Chunk := mkHunk 20 3

/-- Hunk with three changed lines at lines 30, 31, 32. -/
def bigHunkC : Chunk := mkHunk 30 3

/-- Hunk with a single changed line at line 999. -/
def smallHunk : Chunk := mkHunk 999 1

/-- File with four hunks whose second hunk has only one changed line. -/
def exFile1 : File := File.mk (some "a.ts") [bigHunkA, smallHunk, bigHunkB, bigHunkC]

/-- File with two hunks of 60 changed lines each. -/
def exFile2 : File := File.mk (some "b.ts") [mkHunk 1 60, mkHunk 200 60]

/-- File with a single three-line hunk. -/
def exFile4 : File := File.mk (some "c.ts") [bigHunkA]

/-- File with two three-line hunks. -/
def exFile5 : File := File.mk (some "d.ts") [bigHunkA, bigHunkB]

/-- Hunk with 120 changed lines. -/
def hunk120 : Chunk := mkHunk 500 120

/-- File with four hunks whose second hunk has 120 changed lines. -/
def exFile9 : File := File.mk (some "e.ts") [bigHunkA, hunk120, bigHunkB, bigHunkC]

/-- Provenance of a chunk group produced by groupChunks from the hunk list cs: either
a single original hunk that passed the small-hunk check, or the merge of two adjacent
hunks a and b where a passed the small-hunk check, a fits the ceiling alone and the
combined change count fits the ceiling. -/
def UnitOrigin (cs : List Chunk) (u : Chunk) : Prop :=
  (u ∈ cs ∧ 3 ≤ u.changes.length) ∨
  (∃ a b l r, cs = l ++ a :: b :: r ∧ u = mergeChunks a b ∧
    3 ≤ a.changes.length ∧ a.changes.length ≤ maxChangesPerChunk ∧
    a.changes.length + b.changes.length ≤ maxChangesPerChunk)

/-- The review comment text used in the claim C4 failing inputs; its length is 40. -/
def offByOneComment : String := "This loop has an off-by-one error in it."

/-- Failing input for claim C4: a suggestion whose line number parses to the positive
non-integer 2.5. -/
def halfLineSuggestion : Suggestion := Suggestion.mk "2.5" offByOneComment

/-- Failing input for claim C4: a suggestion whose line number 999999 is far beyond
every changed line of the file. -/
def hugeLineSuggestion : Suggestion := Suggestion.mk "999999" offByOneComment


example : parseIntJs "10" = JsNumber.int 10 := by decide
example : parseIntJs "abc" = JsNumber.nan := by decide
example : parseIntJs "12abc" = JsNumber.int 12 := by decide
example : parseIntJs "-5" = JsNumber.int (-5) := by decide
example : jsNumber "2.5" = some (mkRat 5 2) := by decide
example : jsNumber "" = some 0 := by decide
example : jsNumber "x1" = none := by decide
example : jsNumber "999999" = some 999999 := by decide
example : sliceJs [1, 2, 3] (JsNumber.int 2) = [1, 2] := by decide
example : sliceJs [1, 2, 3] JsNumber.nan = [] := by decide
example : sliceJs [1, 2, 3] (JsNumber.int (-1)) = [1, 2] := by decide

example :
    groupChunks [mkHunk 1 1, mkHunk 10 40, mkHunk 60 120, mkHunk 200 10, mkHunk 300 10] =
      [mkHunk 10 40, mkHunk 60 120, mergeChunks (mkHunk 200 10) (mkHunk 300 10)] := by
  decide

/-- Extending the hunk list on the left preserves unit provenance. -/
theorem UnitOrigin.cons {cs : List Chunk} {u c : Chunk} (h : UnitOrigin cs u) :
    UnitOrigin (c :: cs) u := by
  rcases h with ⟨hm, hl⟩ | ⟨a, b, l, r, h1, h2, h3, h4, h5⟩
  · exact Or.inl ⟨List.mem_cons_of_mem c hm, hl⟩
  · exact Or.inr ⟨a, b, c :: l, r, by rw [h1]; rfl, h2, h3, h4, h5⟩

/-- Every chunk group produced by groupChunks is either an original hunk with at least
3 changed lines or a within-ceiling merge of two adjacent hunks. -/
theorem groupChunks_sound : ∀ (cs : List Chunk), ∀ u ∈ groupChunks cs, UnitOrigin cs u
  | [] => by intro u hu; simp [groupChunks] at hu
  | [c] => by
    intro u hu
    by_cases h3 : c.changes.length < 3
    · simp [groupChunks, h3] at hu
    · simp [groupChunks, h3] at hu
      subst hu
      exact Or.inl ⟨by simp, by omega⟩
  | c :: next :: rest => by
    intro u hu
    by_cases h3 : c.changes.length < 3
    · simp only [groupChunks, if_pos h3] at hu
      exact (groupChunks_sound (next :: rest) u hu).cons
    · by_cases hbig : maxChangesPerChunk < c.changes.length
      · simp only [groupChunks, if_neg h3, if_pos hbig] at hu
        rcases List.mem_cons.mp hu with rfl | hu2
        · exact Or.inl ⟨List.mem_cons_self _ _, by omega⟩
        · exact (groupChunks_sound (next :: rest) u hu2).cons
      · by_cases hmerge : c.changes.length + next.changes.length ≤ maxChangesPerChunk
        · simp only [groupChunks, if_neg h3, if_neg hbig, if_pos hmerge] at hu
          rcases List.mem_cons.mp hu with rfl | hu2
          · exact Or.inr ⟨c, next, [], rest, rfl, rfl, by omega, by omega, hmerge⟩
          · exact ((groupChunks_sound rest u hu2).cons).cons
        · simp only [groupChunks, if_neg h3, if_neg hbig, if_neg hmerge] at hu
          rcases List.mem_cons.mp hu with rfl | hu2
          · exact Or.inl ⟨List.mem_cons_self _ _, by omega⟩
          · exact (groupChunks_sound (next :: rest) u hu2).cons

/-- For a file with more than 3 hunks, every unit comes from the grouping loop. -/
theorem fileUnits_mem {file : File} (h : 3 < file.chunks.length) {u : Chunk}
    (hu : u ∈ fileUnits file) : u ∈ groupChunks file.chunks := by
  unfold fileUnits at hu
  by_cases hd : file.«to» = some "/dev/null"
  · rw [if_pos hd] at hu; simp at hu
  · rw [if_neg hd, if_neg (by omega)] at hu; exact hu

/-- Claim C1 counterexample: in a file with 4 hunks whose second hunk has a single
changed line, the chunk grouper emits a unit obtained by merging the first hunk with
that small hunk, so a hunk with fewer than 3 changed lines does appear in a
ReviewUnit, contrary to the claim; its changed line is part of the emitted unit. -/
theorem C1_counterexample :
    3 < exFile1.chunks.length ∧
    smallHunk ∈ exFile1.chunks ∧
    smallHunk.changes.length < 3 ∧
    mergeChunks bigHunkA smallHunk ∈ fileUnits exFile1 ∧
    ∀ ch ∈ smallHunk.changes, ch ∈ (mergeChunks bigHunkA smallHunk).changes := by
  decide

/-- Claim C1 (amended): for a file with more than 3 hunks, a hunk with fewer than 3
changed lines is never emitted as a unit on its own and never starts a merge: every
unit is either a single original hunk with at least 3 changed lines, or the merge of
two adjacent hunks whose first member has at least 3 changed lines. The small hunk
can therefore appear in a unit only as the second member of a merged pair. -/
theorem C1_small_hunk_amended (file : File) (h : 3 < file.chunks.length) :
    ∀ u ∈ fileUnits file,
      (u ∈ file.chunks ∧ 3 ≤ u.changes.length) ∨
      (∃ a b l r, file.chunks = l ++ a :: b :: r ∧ u = mergeChunks a b ∧
        3 ≤ a.changes.length) := by
  intro u hu
  rcases groupChunks_sound file.chunks u (fileUnits_mem h hu) with
    ⟨hm, hl⟩ | ⟨a, b, l, r, h1, h2, h3, _, _⟩
  · exact Or.inl ⟨hm, hl⟩
  · exact Or.inr ⟨a, b, l, r, h1, h2, h3⟩

/-- Witness for the amended claim C1 at a concrete input: the first unit emitted for
exFile1 is the merge of the first two hunks, and the theorem instantiates to its
provenance disjunction. -/
theorem C1_amended_witness :
    (mergeChunks bigHunkA smallHunk ∈ exFile1.chunks ∧
      3 ≤ (mergeChunks bigHunkA smallHunk).changes.length) ∨
    (∃ a b l r, exFile1.chunks = l ++ a :: b :: r ∧
      mergeChunks bigHunkA smallHunk = mergeChunks a b ∧ 3 ≤ a.changes.length) :=
  C1_small_hunk_amended exFile1 (by decide) (mergeChunks bigHunkA smallHunk) (by decide)

/-- Claim C2 counterexample: a file with two hunks of 60 changed lines each takes the
at-most-3-hunks whole-file path, which emits one unit of 120 changed lines, exceeding
the ceiling of 100 even though no single hunk of the file exceeds it. -/
theorem C2_counterexample :
    fileUnits exFile2 = [combinedChunk exFile2] ∧
    maxChangesPerChunk < (combinedChunk exFile2).changes.length ∧
    ∀ c ∈ exFile2.chunks, c.changes.length ≤ maxChangesPerChunk := by
  decide

/-- Claim C2 (amended): for units produced by the more-than-3-hunks per-hunk path, a
unit whose changed-line count exceeds the ceiling of 100 is always a single original
hunk (passed through unmerged); merged units never exceed the ceiling. The
at-most-3-hunks whole-file path is not subject to the ceiling and can emit a unit
exceeding it even when no single hunk does. -/
theorem C2_ceiling_amended (file : File) (h : 3 < file.chunks.length) :
    ∀ u ∈ fileUnits file,
      maxChangesPerChunk < u.changes.length → u ∈ file.chunks := by
  intro u hu hbig
  rcases groupChunks_sound file.chunks u (fileUnits_mem h hu) with
    ⟨hm, _⟩ | ⟨a, b, l, r, _, h2, _, _, h5⟩
  · exact hm
  · subst h2
    simp only [mergeChunks, List.length_append] at hbig
    omega

set_option maxRecDepth 8000 in
/-- Witness for the amended claim C2 at a concrete input: in a file with four hunks
of sizes 3, 120, 3, 3, the 120-line hunk is an emitted unit exceeding the ceiling,
and the theorem concludes that it is one of the original hunks. -/
theorem C2_amended_witness : hunk120 ∈ exFile9.chunks :=
  C2_ceiling_amended exFile9 (by decide) hunk120 (by decide) (by decide)

/-- Claim C5: a file that is not deleted and has at most 3 hunks produces exactly one
ReviewUnit, whose changed-line sequence is the in-order concatenation of the changed
lines of all hunks of the file, with no ceiling or small-hunk filtering applied. -/
theorem C5_whole_file (file : File) (h1 : file.«to» ≠ some "/dev/null")
    (h2 : file.chunks.length ≤ 3) :
    fileUnits file = [combinedChunk file] ∧
    (combinedChunk file).changes = file.chunks.flatMap Chunk.changes := by
  refine ⟨?_, rfl⟩
  unfold fileUnits
  rw [if_neg h1, if_pos h2]

/-- Witness for claim C5 at a concrete input: a two-hunk file yields exactly the one
combined unit. -/
theorem C5_witness :
    fileUnits exFile5 = [combinedChunk exFile5] ∧
    (combinedChunk exFile5).changes = exFile5.chunks.flatMap Chunk.changes :=
  C5_whole_file exFile5 (by decide) (by decide)

/-- Claim C8: for a file with more than 3 hunks, every emitted unit is either a single
original hunk or the merge of a hunk with its immediate next hunk in the file, formed
only when their combined changed-line count is at most the ceiling; a merged unit
never combines non-adjacent hunks. -/
theorem C8_greedy_adjacent (file : File) (h : 3 < file.chunks.length) :
    ∀ u ∈ fileUnits file,
      u ∈ file.chunks ∨
      (∃ a b l r, file.chunks = l ++ a :: b :: r ∧ u = mergeChunks a b ∧
        a.changes.length + b.changes.length ≤ maxChangesPerChunk) := by
  intro u hu
  rcases groupChunks_sound file.chunks u (fileUnits_mem h hu) with
    ⟨hm, _⟩ | ⟨a, b, l, r, h1, h2, _, _, h5⟩
  · exact Or.inl hm
  · exact Or.inr ⟨a, b, l, r, h1, h2, h5⟩

/-- Witness for claim C8 at a concrete input: the second unit emitted for exFile1 is
the merge of its third and fourth hunks, and the theorem instantiates to the
adjacency disjunction for it. -/
theorem C8_witness :
    mergeChunks bigHunkB bigHunkC ∈ exFile1.chunks ∨
    (∃ a b l r, exFile1.chunks = l ++ a :: b :: r ∧
      mergeChunks bigHunkB bigHunkC = mergeChunks a b ∧
      a.changes.length + b.changes.length ≤ maxChangesPerChunk) :=
  C8_greedy_adjacent exFile1 (by decide) (mergeChunks bigHunkB bigHunkC) (by decide)

/-- A file without a destination path yields no comments (the defensive check at
main.ts lines 238-240). -/
theorem createComment_no_dest (file : File) (ch : Chunk) (resps : List Suggestion)
    (hto : file.«to» = none) : createComment file ch resps = [] := by
  induction resps with
  | nil => rfl
  | cons r rs ih =>
    simp only [createComment, List.flatMap_cons, hto] at ih ⊢
    simp

/-- A file with an empty destination path (falsy in JS) yields no comments. -/
theorem createComment_empty_dest (file : File) (ch : Chunk) (resps : List Suggestion)
    (hto : file.«to» = some "") : createComment file ch resps = [] := by
  induction resps with
  | nil => rfl
  | cons r rs ih =>
    simp only [createComment, List.flatMap_cons, hto] at ih ⊢
    simp

/-- On a single suggestion, createComment keeps exactly the suggestions accepted by
keepSuggestion, and builds emitComment from them. -/
theorem createComment_singleton (file : File) (ch : Chunk) (dest : String)
    (hto : file.«to» = some dest) (hne : dest ≠ "") (r : Suggestion) :
    createComment file ch [r] =
      (if keepSuggestion r then [emitComment dest r] else []) := by
  simp only [createComment, List.flatMap_cons, List.flatMap_nil, List.append_nil, hto]
  rw [if_neg hne]
  unfold keepSuggestion emitComment
  rcases hjn : jsNumber r.lineNumber with _ | n
  · simp [hjn]
  · simp only [hjn]
    by_cases hpos : n ≤ 0
    · rw [if_pos hpos]
      have hnlt : ¬ (0 < n) := not_lt.mpr hpos
      simp [hnlt]
    · rw [if_neg hpos]
      have hlt : (0 : ℚ) < n := not_le.mp hpos
      by_cases hlen : r.reviewComment.length < 20
      · rw [if_pos hlen]
        have hnge : ¬ (20 ≤ r.reviewComment.length) := not_le.mpr hlen
        simp [hnge]
      · rw [if_neg hlen]
        have hge : 20 ≤ r.reviewComment.length := not_lt.mp hlen
        simp [hlt, hge]

/-- With a usable destination path, createComment is the filter by keepSuggestion
followed by the map emitComment, in order. -/
theorem createComment_eq_filter_map (file : File) (ch : Chunk) (dest : String)
    (hto : file.«to» = some dest) (hne : dest ≠ "") (resps : List Suggestion) :
    createComment file ch resps =
      (resps.filter keepSuggestion).map (emitComment dest) := by
  induction resps with
  | nil => rfl
  | cons r rs ih =>
    have hcons : createComment file ch (r :: rs) =
        createComment file ch [r] ++ createComment file ch rs := by
      simp [createComment]
    rw [hcons, createComment_singleton file ch dest hto hne r, ih, List.filter_cons]
    by_cases hk : keepSuggestion r
    · rw [if_pos hk, if_pos hk]
      rfl
    · rw [if_neg hk, if_neg hk]
      rfl

/-- Claim C6: the comment assembler never emits an inline comment whose line number
is non-positive or non-numeric (a NaN is encoded as none and always dropped) nor one
whose body is shorter than 20 characters, and the surviving comments are exactly the
accepted suggestions, mapped in their original order. -/
theorem C6_assembler_valid (file : File) (ch : Chunk) (resps : List Suggestion) :
    (∀ c ∈ createComment file ch resps, 0 < c.line ∧ 20 ≤ c.body.length) ∧
    createComment file ch resps =
      (match file.«to» with
       | none => []
       | some dest =>
         if dest = "" then [] else (resps.filter keepSuggestion).map (emitComment dest)) := by
  rcases hto : file.«to» with _ | dest
  · rw [createComment_no_dest file ch resps hto]
    exact ⟨(by intro c hc; cases hc), rfl⟩
  · by_cases hne : dest = ""
    · subst hne
      rw [createComment_empty_dest file ch resps hto]
      exact ⟨(by intro c hc; cases hc), rfl⟩
    · rw [createComment_eq_filter_map file ch dest hto hne resps]
      refine ⟨?_, ?_⟩
      · intro c hc
        rcases List.mem_map.mp hc with ⟨r, hr, rfl⟩
        have hk : keepSuggestion r = true := (List.mem_filter.mp hr).2
        unfold keepSuggestion at hk
        rcases Bool.and_eq_true_iff.mp hk with ⟨hk1, hk2⟩
        rcases hjn : jsNumber r.lineNumber with _ | n
        · rw [hjn] at hk1; cases hk1
        · rw [hjn] at hk1
          refine ⟨?_, of_decide_eq_true hk2⟩
          simp only [emitComment, hjn, Option.getD_some]
          exact of_decide_eq_true hk1
      · show (resps.filter keepSuggestion).map (emitComment dest) =
          if dest = "" then [] else (resps.filter keepSuggestion).map (emitComment dest)
        rw [if_neg hne]

/-- Witness for claim C6 at a concrete input: a suggestion with line number 5 and a
long enough comment is emitted, and the theorem instantiates to the positivity and
length facts for the emitted comment. -/
theorem C6_witness :
    0 < (emitComment "d.ts" (Suggestion.mk "5" "Possible null dereference on empty input list.")).line ∧
    20 ≤ (emitComment "d.ts" (Suggestion.mk "5" "Possible null dereference on empty input list.")).body.length :=
  (C6_assembler_valid exFile5 bigHunkA
      [Suggestion.mk "5" "Possible null dereference on empty input list."]).1
    (emitComment "d.ts" (Suggestion.mk "5" "Possible null dereference on empty input list."))
    (by decide)

/-- Claim C4 evaluation at the failing inputs: createComment emits a comment with the
non-integer line 5/2 and a comment with line 999999 although every changed line of
the hunk has a far smaller line number; the only checks performed are NaN, positivity
and comment length, so the claimed invariant (line is a positive integer naming an
existing line of the new file) is not enforced, contradicting the validation the
source comment at main.ts line 242 announces. -/
theorem C4_line_validation_eval :
    createComment exFile4 bigHunkA [halfLineSuggestion, hugeLineSuggestion] =
      [InlineComment.mk offByOneComment "c.ts" (mkRat 5 2),
       InlineComment.mk offByOneComment "c.ts" (mkRat 999999 1)] ∧
    (mkRat 5 2).den ≠ 1 ∧
    ∀ ch ∈ bigHunkA.changes, ch.ln.getD 0 < 999999 := by
  decide

/-- Pointwise equal unit contributions give equal accumulated comment lists. -/
theorem contributionsFrom_congr (ai1 ai2 : Nat → CompletionOutcome)
    (h : ∀ (k : Nat) (fu : File × Chunk),
      unitContribution fu (ai1 k) = unitContribution fu (ai2 k)) :
    ∀ (l : List (File × Chunk)) (k : Nat),
      contributionsFrom ai1 l k = contributionsFrom ai2 l k
  | [], _ => rfl
  | fu :: rest, k => by
    simp only [contributionsFrom]
    rw [h k fu, contributionsFrom_congr ai1 ai2 h rest (k + 1)]

/-- Claim C3: a failing completion call for one unit (a thrown network error, an
unparseable reply, or a reply without the reviews field) yields none from
getAIResponse, makes that unit contribute zero comments, and leaves the whole run
result identical to a run where that unit succeeded with an empty review list: the
failure never affects other units or aborts the run. -/
theorem C3_unit_isolation (files : List File) (ai : Nat → CompletionOutcome) (k : Nat)
    (o : CompletionOutcome) (maxComments : JsNumber)
    (h : o = CompletionOutcome.error ∨ o = CompletionOutcome.malformed ∨
      o = CompletionOutcome.missingReviews) :
    getAIResponse o = none ∧
    (∀ fu : File × Chunk, unitContribution fu o = []) ∧
    analyzeCode files (Function.update ai k o) maxComments =
      analyzeCode files (Function.update ai k (CompletionOutcome.reviews [])) maxComments := by
  have hnone : getAIResponse o = none := by
    rcases h with h | h | h <;> subst h <;> rfl
  have hzero : ∀ fu : File × Chunk, unitContribution fu o = [] := by
    intro fu
    simp [unitContribution, hnone]
  refine ⟨hnone, hzero, ?_⟩
  unfold analyzeCode
  congr 1
  apply contributionsFrom_congr
  intro j fu
  by_cases hjk : j = k
  · subst hjk
    rw [Function.update_same, Function.update_same, hzero]
    rfl
  · rw [Function.update_noteq hjk, Function.update_noteq hjk]

/-- Witness for claim C3 at a concrete input: a run over one file whose only
completion call throws, compared with the same run succeeding with no suggestions. -/
theorem C3_witness :
    getAIResponse CompletionOutcome.error = none ∧
    unitContribution (exFile5, combinedChunk exFile5) CompletionOutcome.error = [] ∧
    analyzeCode [exFile5]
        (Function.update (fun _ => CompletionOutcome.reviews []) 0 CompletionOutcome.error)
        (JsNumber.int 10) =
      analyzeCode [exFile5]
        (Function.update (fun _ => CompletionOutcome.reviews []) 0
          (CompletionOutcome.reviews []))
        (JsNumber.int 10) := by
  have t := C3_unit_isolation [exFile5] (fun _ => CompletionOutcome.reviews []) 0
    CompletionOutcome.error (JsNumber.int 10) (Or.inl rfl)
  exact ⟨t.1, t.2.1 (exFile5, combinedChunk exFile5), t.2.2⟩

/-- Claim C7: when the configured maximum parses to a nonnegative integer n (the
default input gives 10), the published sequence is exactly the first n accumulated
comments: its length is at most n and it is a prefix of the full sequence in
generation order, with no reordering. -/
theorem C7_prefix_cap (input : String) (n : ℤ) (files : List File)
    (ai : Nat → CompletionOutcome) (h1 : maxCommentsPerPR input = JsNumber.int n)
    (h2 : 0 ≤ n) :
    analyzeCode files ai (maxCommentsPerPR input) =
      (contributionsFrom ai (analyzeCodeUnits files) 0).take n.toNat ∧
    (analyzeCode files ai (maxCommentsPerPR input)).length ≤ n.toNat ∧
    ∃ rest, analyzeCode files ai (maxCommentsPerPR input) ++ rest =
      contributionsFrom ai (analyzeCodeUnits files) 0 := by
  have heq : analyzeCode files ai (maxCommentsPerPR input) =
      (contributionsFrom ai (analyzeCodeUnits files) 0).take n.toNat := by
    unfold analyzeCode
    rw [h1]
    simp only [sliceJs]
    rw [if_neg (by omega)]
  refine ⟨heq, ?_, ?_⟩
  · rw [heq, List.length_take]
    exact Nat.min_le_left _ _
  · refine ⟨(contributionsFrom ai (analyzeCodeUnits files) 0).drop n.toNat, ?_⟩
    rw [heq, List.take_append_drop]

/-- Witness for claim C7 at a concrete input: the empty configuration input defaults
to 10 and the cap theorem instantiates for an empty run. -/
theorem C7_witness :
    analyzeCode [] (fun _ => CompletionOutcome.missingReviews) (maxCommentsPerPR "") =
      (contributionsFrom (fun _ => CompletionOutcome.missingReviews)
        (analyzeCodeUnits []) 0).take (10 : ℤ).toNat ∧
    (analyzeCode [] (fun _ => CompletionOutcome.missingReviews)
        (maxCommentsPerPR "")).length ≤ (10 : ℤ).toNat ∧
    ∃ rest, analyzeCode [] (fun _ => CompletionOutcome.missingReviews)
        (maxCommentsPerPR "") ++ rest =
      contributionsFrom (fun _ => CompletionOutcome.missingReviews) (analyzeCodeUnits []) 0 :=
  C7_prefix_cap "" 10 [] (fun _ => CompletionOutcome.missingReviews) (by decide) (by decide)

/-- Claim C9: when the accumulated comment list is empty, the publish call is not
made, the run succeeds and the process exit code is 0; and whenever the publish call
is made, the comment list was non-empty. -/
theorem C9_empty_no_publish (comments : List InlineComment) (pub : PublishOutcome)
    (h : comments = []) :
    mainTail comments pub = (RunResult.success, false) ∧
    exitCode (mainTail comments pub).1 = 0 ∧
    ∀ (cs : List InlineComment) (p : PublishOutcome),
      (mainTail cs p).2 = true → cs ≠ [] := by
  subst h
  refine ⟨rfl, rfl, ?_⟩
  intro cs p hcp hnil
  subst hnil
  simp [mainTail] at hcp

/-- Witness for claim C9 at a concrete input: the empty run with a publisher that
would succeed. -/
theorem C9_witness :
    mainTail [] PublishOutcome.ok = (RunResult.success, false) ∧
    exitCode (mainTail [] PublishOutcome.ok).1 = 0 ∧
    ∀ (cs : List InlineComment) (p : PublishOutcome),
      (mainTail cs p).2 = true → cs ≠ [] :=
  C9_empty_no_publish [] PublishOutcome.ok rfl

/-- Claim C10: a non-empty MAX_COMMENTS_PER_PR input on which parseInt yields NaN
makes slice(0, NaN) return the empty list, so the run publishes zero comments and no
review is submitted, regardless of the generated comments. -/
theorem C10_nan_config (input : String) (files : List File)
    (ai : Nat → CompletionOutcome) (pub : PublishOutcome) (h1 : input ≠ "")
    (h2 : parseIntJs input = JsNumber.nan) :
    analyzeCode files ai (maxCommentsPerPR input) = [] ∧
    mainTail (analyzeCode files ai (maxCommentsPerPR input)) pub =
      (RunResult.success, false) := by
  have h3 : maxCommentsPerPR input = JsNumber.nan := by
    unfold maxCommentsPerPR
    rw [if_neg h1]
    exact h2
  have h4 : analyzeCode files ai (maxCommentsPerPR input) = [] := by
    unfold analyzeCode
    rw [h3]
    rfl
  exact ⟨h4, by rw [h4]; rfl⟩

/-- Witness for claim C10 at a concrete input: the configuration string abc does not
parse as an integer and forces an empty publication even for a run over a file. -/
theorem C10_witness :
    analyzeCode [exFile5] (fun _ => CompletionOutcome.reviews [])
        (maxCommentsPerPR "abc") = [] ∧
    mainTail (analyzeCode [exFile5] (fun _ => CompletionOutcome.reviews [])
        (maxCommentsPerPR "abc")) PublishOutcome.ok = (RunResult.success, false) :=
  C10_nan_config "abc" [exFile5] (fun _ => CompletionOutcome.reviews [])
    PublishOutcome.ok (by decide) (by decide)

end CodeReviewer
